import Mathlib

/-!
Verification of the gortsplib RTSP client/server core against its
natural-language specification.  The Go sources are shallowly embedded:
pure fragments become Lean functions, the stateful client connection
becomes explicit state passing on a `ClientConn` record, and socket
effects become an explicit effect trace.  Machine integers are modelled
as `Nat` with explicit bounds where the Go types impose them.
-/

namespace Gortsplib

/-- Stream protocol negotiated for a session (UDP or TCP), as in the Go
`StreamProtocol` enumeration. -/
inductive StreamProtocol
  | udp
  | tcp
deriving DecidableEq, Repr

/-- Stream type of a frame (RTP or RTCP), as in the Go `StreamType`
enumeration. -/
inductive StreamType
  | rtp
  | rtcp
deriving DecidableEq, Repr

/-- Modelled from the spec: client connection states of section 4.4
(`Initial`, `PrePlay`, `Play`, `PreRecord`, `Record`, `Closed`); the Go
enumeration `clientConnState` is referenced by the sources but its
declaration is not among them. -/
inductive ClientConnState
  | initial
  | prePlay
  | play
  | preRecord
  | record
  | closed
deriving DecidableEq, Repr

/-- Client-side errors relevant to the claims: the state error of
`liberrors.ErrClientWrongState`, the status error of
`liberrors.ErrClientWrongStatusCode`, the latched publish error
`terminated`, and a generic transport error used to model socket write
results. -/
inductive CError
  | wrongState (current : ClientConnState) (allowed : List ClientConnState)
  | wrongStatusCode (code : Nat) (message : String)
  | terminated
  | transport (message : String)
deriving DecidableEq, Repr

/-- RTSP response as observed by the client: status code, status message
(headers and body are irrelevant to the claims). -/
structure Response where
  statusCode : Nat
  statusMessage : String
deriving DecidableEq, Repr

/-- The part of a `Track` touched by `ClientConn.Announce`: its id, its
base URL and its media attributes (key-value pairs). -/
structure Track where
  id : Nat
  baseURL : Option String
  attributes : List (String × String)
deriving DecidableEq, Repr

/-- The part of the Go `ClientConn` state read and written by `Announce`,
`Record`, `WriteFrame` and the background record loops. -/
structure ClientConn where
  state : ClientConnState
  streamURL : Option String
  streamProtocol : StreamProtocol
  publishOpen : Bool
  publishError : Option CError
  writeTimeout : Nat
deriving DecidableEq, Repr

/-- Modelled from the spec: `ClientConn.checkState` is called by the
sources but not among them; per section 4.4, a method invoked in a state
not in its allowed set fails with the WrongState error carrying the
current state and the allowed set. -/
def ClientConn.checkState (c : ClientConn) (allowed : List ClientConnState) :
    Option CError :=
  if c.state ∈ allowed then none else some (.wrongState c.state allowed)

/-- One mutation step of the track loop at the start of
`ClientConn.Announce`: the track at index `i` receives id `i`, base URL
`u`, and an appended `control` media attribute `trackID=<i>`. -/
def announceSetTrack (u : String) (i : Nat) (t : Track) : Track :=
  { t with
    id := i
    baseURL := some u
    attributes := t.attributes ++ [("control", "trackID=" ++ Nat.repr i)] }

deriving instance DecidableEq for Except

/-- Result of `ClientConn.Announce`: the connection afterwards, the tracks
after their in-place mutation (these are what `Tracks.Write` serializes
into the request body), and the returned response-or-error pair. -/
structure AnnounceOut where
  conn : ClientConn
  tracks : List Track
  result : Except CError Response
deriving DecidableEq, Repr

/-- `ClientConn.Announce` from the sources.  The network exchange done by
`c.Do` is abstracted into the `doResult` argument: the response-or-error
the request cycle produced. -/
def ClientConn.announce (c : ClientConn) (u : String) (tracks : List Track)
    (doResult : Except CError Response) : AnnounceOut :=
  match c.checkState [.initial] with
  | some e => ⟨c, tracks, .error e⟩
  | none =>
    let tracks1 := tracks.enum.map fun p => announceSetTrack u p.1 p.2
    match doResult with
    | .error e => ⟨c, tracks1, .error e⟩
    | .ok res =>
      if res.statusCode ≠ 200 then
        ⟨c, tracks1, .error (.wrongStatusCode res.statusCode res.statusMessage)⟩
      else
        ⟨{ c with streamURL := some u, state := .preRecord }, tracks1, .ok res⟩

/-- Result of `ClientConn.Record`: the connection afterwards and the
returned `(response, error)` pair, each component optional as in Go. -/
structure RecordOut where
  conn : ClientConn
  response : Option Response
  error : Option CError
deriving DecidableEq, Repr

/-- `ClientConn.Record` from the sources.  The network exchange done by
`c.Do` is abstracted into the `doResult` argument.  On success the Go
code also allocates the terminate and done channels and spawns the
background record loop; the loop itself is modelled separately. -/
def ClientConn.record (c : ClientConn) (doResult : Except CError Response) :
    RecordOut :=
  match c.checkState [.preRecord] with
  | some e => ⟨c, none, some e⟩
  | none =>
    match doResult with
    | .error e => ⟨c, none, some e⟩
    | .ok res =>
      if res.statusCode ≠ 200 then
        ⟨c, none, some (.wrongStatusCode res.statusCode res.statusMessage)⟩
      else
        ⟨{ c with state := .record, publishOpen := true }, none, none⟩

/-- An interleaved frame as constructed by `ClientConn.WriteFrame` under
TCP transport. -/
structure InterleavedFrame where
  trackID : Nat
  streamType : StreamType
  payload : List Nat
deriving DecidableEq, Repr

/-- Side effects of the publish write path, in program order: the RTCP
helper call, UDP socket writes, the write-deadline refresh, the
interleaved TCP write, and (in the UDP record loop terminate branch) the
read-deadline-to-now and the wait on the response reader. -/
inductive WriteEffect
  | processFrame (now : Nat) (trackID : Nat) (st : StreamType) (payload : List Nat)
  | udpRTPWrite (trackID : Nat) (payload : List Nat)
  | udpRTCPWrite (trackID : Nat) (payload : List Nat)
  | setWriteDeadline (deadline : Nat)
  | interleavedWrite (frame : InterleavedFrame)
  | setReadDeadlineNow
  | waitReaderDone
deriving DecidableEq, Repr

/-- `ClientConn.WriteFrame` from the sources.  `now` abstracts
`time.Now()`; `sockResult` abstracts the return value of the underlying
socket write (the UDP listener write or the interleaved frame write),
`none` meaning a nil error.  Returns the effect trace and the returned
error. -/
def ClientConn.writeFrame (c : ClientConn) (now : Nat) (trackID : Nat)
    (st : StreamType) (payload : List Nat) (sockResult : Option CError) :
    List WriteEffect × Option CError :=
  if ¬ c.publishOpen then
    ([], c.publishError)
  else
    let pre := [WriteEffect.processFrame now trackID st payload]
    if c.streamProtocol = .udp then
      if st = .rtp then
        (pre ++ [.udpRTPWrite trackID payload], sockResult)
      else
        (pre ++ [.udpRTCPWrite trackID payload], sockResult)
    else
      (pre ++ [.setWriteDeadline (now + c.writeTimeout),
               .interleavedWrite ⟨trackID, st, payload⟩], sockResult)

/-- The terminate branch of `ClientConn.backgroundRecordUDP` from the
sources: on the terminate signal the loop sets the read deadline to now,
waits for the response reader to exit, latches the publish error to
`terminated`, and on return the deferred handler clears `publishOpen`
under the write lock. -/
def ClientConn.backgroundRecordUDPOnTerminate (c : ClientConn) :
    ClientConn × List WriteEffect :=
  ({ c with publishError := some .terminated, publishOpen := false },
   [.setReadDeadlineNow, .waitReaderDone])

/-- Server-side errors of the SETUP handler relevant to the claims.  The
messages (see `SrvError.message`) are pinned by the repository tests
`TestServerReadSetupDifferentPaths` and
`TestServerPublishSetupDifferentPaths`. -/
inductive SrvError
  | cantSetupTracksDifferentPaths
  | invalidTrackPath (pathAndQuery : List Char)
  | pathMustEndWithSlash (pathAndQuery : List Char)
  | unableToParseTrackID (pathAndQuery : List Char)
deriving DecidableEq, Repr

/-- Error messages surfaced by the server `Read` call for SETUP errors,
as asserted by the repository tests. -/
def SrvError.message : SrvError → List Char
  | .cantSetupTracksDifferentPaths => "can\x27t setup tracks with different paths".toList
  | .invalidTrackPath p => "invalid track path (".toList ++ p ++ [')']
  | .pathMustEndWithSlash p => "path must end with a slash (".toList ++ p ++ [')']
  | .unableToParseTrackID p => "unable to parse track id (".toList ++ p ++ [')']

/-- The RTSP status code of the response the server sends when the SETUP
handler fails with one of the above errors; the tests assert 400
(StatusBadRequest) in every such case. -/
def SrvError.status : SrvError → Nat
  | .cantSetupTracksDifferentPaths => 400
  | .invalidTrackPath _ => 400
  | .pathMustEndWithSlash _ => 400
  | .unableToParseTrackID _ => 400

/-- Index of the last occurrence of `pat` inside a character list, as
`strings.LastIndex`; `none` when `pat` does not occur. -/
def lastIndexOfSub (pat : List Char) : List Char → Option Nat
  | [] => if pat.isPrefixOf ([] : List Char) then some 0 else none
  | c :: rest =>
    match lastIndexOfSub pat rest with
    | some j => some (j + 1)
    | none => if pat.isPrefixOf (c :: rest) then some 0 else none

/-- The path part of a path-and-query string: everything before the first
question mark. -/
def pathSplitQuery (s : List Char) : List Char :=
  s.takeWhile (fun c => c ≠ '?')

/-- Decimal digit value of a character, `none` for a non-digit. -/
def decDigit? (c : Char) : Option Nat :=
  if 48 ≤ c.toNat ∧ c.toNat ≤ 57 then some (c.toNat - 48) else none

/-- Accumulating decimal parse, as the digit loop of `strconv.ParseUint`:
fails on the first non-digit character. -/
def parseDecAux (acc : Nat) : List Char → Option Nat
  | [] => some acc
  | c :: rest =>
    match decDigit? c with
    | some d => parseDecAux (10 * acc + d) rest
    | none => none

/-- Decimal parse of a whole character list: rejects the empty string and
any non-digit, as `strconv.ParseUint(s, 10, _)` restricted to plain digit
strings. -/
def parseDecList : List Char → Option Nat
  | [] => none
  | c :: rest => parseDecAux 0 (c :: rest)

/-- `strconv.ParseUint(s, 10, bits)` with `bound = 2 ^ bits`: a parse that
succeeds only for values below the bound. -/
def parseUintDec (s : List Char) (bound : Nat) : Option Nat :=
  match parseDecList s with
  | some n => if n < bound then some n else none
  | none => none

/-- The character of a decimal digit. -/
def digitCharOf (d : Nat) : Char := Char.ofNat (48 + d)

/-- Fuel-driven decimal rendering loop, most significant digit first. -/
def natToDecAux : Nat → Nat → List Char → List Char
  | 0, _, acc => acc
  | fuel + 1, n, acc =>
    if n < 10 then digitCharOf n :: acc
    else natToDecAux fuel (n / 10) (digitCharOf (n % 10) :: acc)

/-- Decimal rendering of a natural number, as
`strconv.FormatUint(n, 10)`. -/
def natToDec (n : Nat) : List Char := natToDecAux (n + 1) n []

/-- The literal suffix pattern searched by the reader-mode SETUP path
derivation. -/
def trackIDPat : List Char := "/trackID=".toList

/-- Modelled from the spec: the server connection implementation is not
among the sources; section 4.5 specifies that a reader-mode SETUP URL is
parsed into a base path and a track id by stripping a trailing
`/trackID=N` suffix, tolerating `/` separators inside a query string, and
(behaviour pinned by `TestServerReadSetupPath`) deriving track id 0 and
the slash-stripped path when the URL ends in `/` without a track id
suffix. -/
def setupPlayPath (pathAndQuery : List Char) : Except SrvError (List Char × Nat) :=
  match lastIndexOfSub trackIDPat pathAndQuery with
  | none =>
    if pathAndQuery.getLast? = some '/' then
      .ok (pathSplitQuery pathAndQuery.dropLast, 0)
    else
      .error (.pathMustEndWithSlash pathAndQuery)
  | some i =>
    match parseDecList (pathAndQuery.drop (i + trackIDPat.length)) with
    | some n => .ok (pathSplitQuery (pathAndQuery.take i), n)
    | none => .error (.unableToParseTrackID pathAndQuery)

/-- Modelled from the spec: reader-mode SETUP handling before the user
callback.  On the first SETUP of a session (`setuppedPath = none`) the
derived base path is recorded; a later SETUP whose derived base path
differs from the recorded one is rejected (section 4.5, pinned by
`TestServerReadSetupDifferentPaths`).  Returns the path and track id
passed to the OnSetup callback. -/
def serverSetupPlay (setuppedPath : Option (List Char))
    (pathAndQuery : List Char) : Except SrvError (List Char × Nat) :=
  match setupPlayPath pathAndQuery with
  | .error e => .error e
  | .ok (path, tid) =>
    match setuppedPath with
    | some sp =>
      if path = sp then .ok (path, tid)
      else .error .cantSetupTracksDifferentPaths
    | none => .ok (path, tid)

/-- URL of an announced track, built from the announced base URL and the
control attribute of the track: a control starting with a question mark
is appended as a query, any other control as a path segment (behaviour
pinned by `TestServerPublishSetupPath`). -/
def trackURLOf (base control : List Char) : List Char :=
  if control.head? = some '?' then base ++ control else base ++ '/' :: control

/-- Modelled from the spec: publisher-mode SETUP handling before the user
callback.  The SETUP URL is matched against the URL of each announced
track (base path recorded at ANNOUNCE plus control attribute); the track
id is the index of the matching announced track, and a URL matching no
announced track is rejected with the invalid-track-path error (behaviour
pinned by `TestServerPublishSetupPath` and
`TestServerPublishSetupDifferentPaths`). -/
def serverSetupRecord (announcedBase : List Char) (controls : List (List Char))
    (setupURL : List Char) (pathAndQuery : List Char) : Except SrvError Nat :=
  match List.findIdx? (fun u => u = setupURL)
      (controls.map (trackURLOf announcedBase)) with
  | some i => .ok i
  | none => .error (.invalidTrackPath pathAndQuery)

/-- An entry of an RTP-Info header, from `pkg/headers`: the URL is
modelled by its string rendering, the sequence number and timestamp are
naturals bounded by the Go types uint16 and uint32. -/
structure RTPInfoEntry where
  url : List Char
  sequenceNumber : Nat
  timestamp : Nat
deriving DecidableEq, Repr

/-- An RTP-Info header, from `pkg/headers`. -/
abbrev RTPInfo := List RTPInfoEntry

/-- First split at an equals sign, as `strings.SplitN(kv, sep, 2)` with
`sep` the equals sign: `none` when the character does not occur. -/
def splitFirstEq : List Char → Option (List Char × List Char)
  | [] => none
  | c :: rest =>
    if c = '=' then some ([], rest)
    else
      match splitFirstEq rest with
      | some (a, b) => some (c :: a, b)
      | none => none

/-- Split at every occurrence of a separator character, as
`strings.Split`. -/
def splitOnChar (sep : Char) : List Char → List (List Char)
  | [] => [[]]
  | c :: rest =>
    match splitOnChar sep rest with
    | [] => if c = sep then [[], []] else [[c]]
    | a :: as => if c = sep then [] :: a :: as else (c :: a) :: as

/-- Join pieces with a separator character, as `strings.Join` with a
one-character separator. -/
def joinSep (sep : Char) : List (List Char) → List Char
  | [] => []
  | [x] => x
  | x :: y :: rest => x ++ sep :: joinSep sep (y :: rest)

/-- One key-value item of an RTP-Info entry, from `RTPInfo.Read`: the
item splits at its first equals sign and the key selects which entry
field the parsed value updates.  URL parsing is an external collaborator
(out of scope per section 1) passed in as `parseURL`. -/
def parseKV (parseURL : List Char → Except (List Char) (List Char))
    (e : RTPInfoEntry) (kv : List Char) : Except (List Char) RTPInfoEntry :=
  match splitFirstEq kv with
  | none => .error ("unable to parse key-value".toList)
  | some (k, v) =>
    if k = "url".toList then
      match parseURL v with
      | .error err => .error err
      | .ok u => .ok { e with url := u }
    else if k = "seq".toList then
      match parseUintDec v 65536 with
      | some n => .ok { e with sequenceNumber := n }
      | none => .error ("unable to parse seq".toList)
    else if k = "rtptime".toList then
      match parseUintDec v 4294967296 with
      | some n => .ok { e with timestamp := n }
      | none => .error ("unable to parse rtptime".toList)
    else
      .error ("invalid key".toList)

/-- One comma-separated item of an RTP-Info header value, from
`RTPInfo.Read`: a fresh zero entry updated by each semicolon-separated
key-value item in order. -/
def parseEntry (parseURL : List Char → Except (List Char) (List Char))
    (tmp : List Char) : Except (List Char) RTPInfoEntry :=
  (splitOnChar ';' tmp).foldlM (parseKV parseURL) ⟨[], 0, 0⟩

/-- `RTPInfo.Read` from the sources, started from an empty header: the
header value must hold exactly one string, which is split at commas into
entries.  (The Go method appends to the receiver; reading into an empty
receiver yields exactly the parsed entries.) -/
def RTPInfo.read (parseURL : List Char → Except (List Char) (List Char))
    (v : List (List Char)) : Except (List Char) RTPInfo :=
  match v with
  | [] => .error ("value not provided".toList)
  | [s] => (splitOnChar ',' s).mapM (parseEntry parseURL)
  | _ => .error ("value provided multiple times".toList)

/-- The rendering of one entry inside `RTPInfo.Write`. -/
def entryWrite (e : RTPInfoEntry) : List Char :=
  "url=".toList ++ e.url ++
    ";seq=".toList ++ natToDec e.sequenceNumber ++
    ";rtptime=".toList ++ natToDec e.timestamp

/-- `RTPInfo.Write` from the sources: one header value string joining the
entry renderings with commas. -/
def RTPInfo.write (h : RTPInfo) : List (List Char) :=
  [joinSep ',' (h.map entryWrite)]

/-! ## Client connection theorems -/

/-- C1: calling Announce in any state other than Initial, or Record in
any state other than PreRecord, fails with the WrongState error carrying
the current state and the allowed set, and leaves the connection (and the
tracks) unchanged; in the allowed state, on a successful exchange with
status 200, Announce transitions Initial to PreRecord and Record
transitions PreRecord to Record. -/
theorem announce_record_state_legality (c : ClientConn) (u : String)
    (tracks : List Track) (doResult : Except CError Response) (res : Response) :
    (c.state ≠ .initial →
      c.announce u tracks doResult =
        ⟨c, tracks, .error (.wrongState c.state [.initial])⟩) ∧
    (c.state ≠ .preRecord →
      c.record doResult =
        ⟨c, none, some (.wrongState c.state [.preRecord])⟩) ∧
    (c.state = .initial → res.statusCode = 200 →
      (c.announce u tracks (.ok res)).conn.state = .preRecord ∧
      (c.announce u tracks (.ok res)).result = .ok res) ∧
    (c.state = .preRecord → res.statusCode = 200 →
      (c.record (.ok res)).conn.state = .record) := by
  refine ⟨fun h => ?_, fun h => ?_, fun h hc => ?_, fun h hc => ?_⟩
  · simp [ClientConn.announce, ClientConn.checkState, h]
  · simp [ClientConn.record, ClientConn.checkState, h]
  · simp [ClientConn.announce, ClientConn.checkState, h, hc]
  · simp [ClientConn.record, ClientConn.checkState, h, hc]

/-- Witness for C1: the wrong-state failures and the successful
transitions at concrete connections. -/
theorem announce_record_state_legality_witness :
    ((⟨.play, none, .udp, false, none, 0⟩ : ClientConn).announce "rtsp://h/s" []
        (.ok ⟨200, "OK"⟩) =
      ⟨⟨.play, none, .udp, false, none, 0⟩, [],
        .error (.wrongState .play [.initial])⟩) ∧
    ((⟨.play, none, .udp, false, none, 0⟩ : ClientConn).record
        (.ok ⟨200, "OK"⟩) =
      ⟨⟨.play, none, .udp, false, none, 0⟩, none,
        some (.wrongState .play [.preRecord])⟩) ∧
    ((⟨.initial, none, .udp, false, none, 0⟩ : ClientConn).announce "rtsp://h/s" []
        (.ok ⟨200, "OK"⟩)).conn.state = .preRecord ∧
    ((⟨.preRecord, some "rtsp://h/s", .udp, false, none, 0⟩ : ClientConn).record
        (.ok ⟨200, "OK"⟩)).conn.state = .record := by
  refine ⟨?_, ?_, ?_, ?_⟩
  · exact (announce_record_state_legality ⟨.play, none, .udp, false, none, 0⟩
      "rtsp://h/s" [] (.ok ⟨200, "OK"⟩) ⟨200, "OK"⟩).1 (by decide)
  · exact (announce_record_state_legality ⟨.play, none, .udp, false, none, 0⟩
      "rtsp://h/s" [] (.ok ⟨200, "OK"⟩) ⟨200, "OK"⟩).2.1 (by decide)
  · exact ((announce_record_state_legality ⟨.initial, none, .udp, false, none, 0⟩
      "rtsp://h/s" [] (.ok ⟨200, "OK"⟩) ⟨200, "OK"⟩).2.2.1 rfl rfl).1
  · exact (announce_record_state_legality
      ⟨.preRecord, some "rtsp://h/s", .udp, false, none, 0⟩
      "rtsp://h/s" [] (.ok ⟨200, "OK"⟩) ⟨200, "OK"⟩).2.2.2 rfl rfl

/-- C3: when Record is called in PreRecord state and the server answers
with status 200, the connection transitions to Record state (with the
publish path opened) and Record returns a nil response together with a
nil error, not the response itself. -/
theorem record_success_returns_nil_nil (c : ClientConn) (res : Response)
    (hs : c.state = .preRecord) (hc : res.statusCode = 200) :
    c.record (.ok res) =
      ⟨{ c with state := .record, publishOpen := true }, none, none⟩ := by
  simp [ClientConn.record, ClientConn.checkState, hs, hc]

/-- Witness for C3 at a concrete PreRecord connection and a 200
response. -/
theorem record_success_returns_nil_nil_witness :
    (⟨.preRecord, some "rtsp://h/s", .udp, false, none, 0⟩ : ClientConn).record
        (.ok ⟨200, "OK"⟩) =
      ⟨⟨.record, some "rtsp://h/s", .udp, true, none, 0⟩, none, none⟩ :=
  record_success_returns_nil_nil
    ⟨.preRecord, some "rtsp://h/s", .udp, false, none, 0⟩ ⟨200, "OK"⟩ rfl rfl

/-- C4: with the publish path open, WriteFrame first calls the RTCP
helper ProcessFrame on (now, streamType, payload) and then, under UDP,
writes exactly the payload to the RTP socket for RTP frames and to the
RTCP socket for RTCP frames; under TCP it refreshes the write deadline to
now plus WriteTimeout and writes an interleaved frame carrying the track
id, stream type and payload; in every case it returns the socket write
result. -/
theorem writeFrame_publishOpen (c : ClientConn) (now trackID : Nat)
    (st : StreamType) (payload : List Nat) (sockResult : Option CError)
    (hopen : c.publishOpen = true) :
    (c.streamProtocol = .udp → st = .rtp →
      c.writeFrame now trackID st payload sockResult =
        ([.processFrame now trackID st payload, .udpRTPWrite trackID payload],
          sockResult)) ∧
    (c.streamProtocol = .udp → st = .rtcp →
      c.writeFrame now trackID st payload sockResult =
        ([.processFrame now trackID st payload, .udpRTCPWrite trackID payload],
          sockResult)) ∧
    (c.streamProtocol = .tcp →
      c.writeFrame now trackID st payload sockResult =
        ([.processFrame now trackID st payload,
          .setWriteDeadline (now + c.writeTimeout),
          .interleavedWrite ⟨trackID, st, payload⟩], sockResult)) := by
  refine ⟨fun hp hst => ?_, fun hp hst => ?_, fun hp => ?_⟩
  · simp [ClientConn.writeFrame, hopen, hp, hst]
  · simp [ClientConn.writeFrame, hopen, hp, hst]
  · simp [ClientConn.writeFrame, hopen, hp]

/-- Witness for C4 at a concrete open publisher, both transports and both
stream types. -/
theorem writeFrame_publishOpen_witness :
    ((⟨.record, none, .udp, true, none, 7⟩ : ClientConn).writeFrame 3 1 .rtp
        [9, 8] none =
      ([.processFrame 3 1 .rtp [9, 8], .udpRTPWrite 1 [9, 8]], none)) ∧
    ((⟨.record, none, .udp, true, none, 7⟩ : ClientConn).writeFrame 3 1 .rtcp
        [9, 8] none =
      ([.processFrame 3 1 .rtcp [9, 8], .udpRTCPWrite 1 [9, 8]], none)) ∧
    ((⟨.record, none, .tcp, true, none, 7⟩ : ClientConn).writeFrame 3 1 .rtp
        [9, 8] none =
      ([.processFrame 3 1 .rtp [9, 8], .setWriteDeadline 10,
        .interleavedWrite ⟨1, .rtp, [9, 8]⟩], none)) := by
  refine ⟨?_, ?_, ?_⟩
  · exact (writeFrame_publishOpen ⟨.record, none, .udp, true, none, 7⟩ 3 1 .rtp
      [9, 8] none rfl).1 rfl rfl
  · exact (writeFrame_publishOpen ⟨.record, none, .udp, true, none, 7⟩ 3 1 .rtcp
      [9, 8] none rfl).2.1 rfl rfl
  · exact (writeFrame_publishOpen ⟨.record, none, .tcp, true, none, 7⟩ 3 1 .rtp
      [9, 8] none rfl).2.2 rfl

/-- C5: with the publish path closed, WriteFrame returns the stored
publish error and performs no effect at all: no ProcessFrame call, no
deadline refresh, no socket write. -/
theorem writeFrame_publishClosed (c : ClientConn) (now trackID : Nat)
    (st : StreamType) (payload : List Nat) (sockResult : Option CError)
    (h : c.publishOpen = false) :
    c.writeFrame now trackID st payload sockResult = ([], c.publishError) := by
  simp [ClientConn.writeFrame, h]

/-- Witness for C5 at a concrete closed publisher with a latched
error. -/
theorem writeFrame_publishClosed_witness :
    (⟨.record, none, .udp, false, some .terminated, 7⟩ : ClientConn).writeFrame
        3 1 .rtp [9, 8] none =
      ([], some .terminated) :=
  writeFrame_publishClosed ⟨.record, none, .udp, false, some .terminated, 7⟩
    3 1 .rtp [9, 8] none rfl

/-- C6: after the UDP background record loop observes the terminate
signal it sets the read deadline to now and waits for the response reader
before returning, and it leaves the connection with the publish path
closed and the publish error latched to terminated, so that every later
WriteFrame call (with any arguments, under any transport) returns the
terminated error and performs no effect. -/
theorem backgroundRecordUDP_terminate_latches (c : ClientConn) :
    (c.backgroundRecordUDPOnTerminate.1.publishOpen = false ∧
     c.backgroundRecordUDPOnTerminate.1.publishError = some .terminated ∧
     c.backgroundRecordUDPOnTerminate.2 =
       [.setReadDeadlineNow, .waitReaderDone]) ∧
    ∀ now trackID st payload sockResult,
      c.backgroundRecordUDPOnTerminate.1.writeFrame now trackID st payload
          sockResult =
        ([], some CError.terminated) := by
  refine ⟨⟨rfl, rfl, rfl⟩, fun now trackID st payload sockResult => ?_⟩
  simp [ClientConn.backgroundRecordUDPOnTerminate, ClientConn.writeFrame]

/-- C7: a non-2xx response observed by Announce (in Initial state) or by
Record (in PreRecord state) makes the operation return the
WrongStatusCode error carrying the status code and status message of the
response, with the connection left unchanged. -/
theorem non2xx_wrongStatusCode (c : ClientConn) (u : String)
    (tracks : List Track) (res : Response)
    (hcode : ¬ (200 ≤ res.statusCode ∧ res.statusCode < 300)) :
    (c.state = .initial →
      (c.announce u tracks (.ok res)).result =
          .error (.wrongStatusCode res.statusCode res.statusMessage) ∧
        (c.announce u tracks (.ok res)).conn = c) ∧
    (c.state = .preRecord →
      (c.record (.ok res)).error =
          some (.wrongStatusCode res.statusCode res.statusMessage) ∧
        (c.record (.ok res)).conn = c) := by
  have hne : res.statusCode ≠ 200 := by omega
  refine ⟨fun hs => ?_, fun hs => ?_⟩
  · simp [ClientConn.announce, ClientConn.checkState, hs, hne]
  · simp [ClientConn.record, ClientConn.checkState, hs, hne]

/-- Witness for C7 at a concrete 404 response, for both Announce and
Record. -/
theorem non2xx_wrongStatusCode_witness :
    ((⟨.initial, none, .udp, false, none, 0⟩ : ClientConn).announce "rtsp://h/s"
        [] (.ok ⟨404, "Not Found"⟩)).result =
      .error (.wrongStatusCode 404 "Not Found") ∧
    ((⟨.preRecord, some "rtsp://h/s", .udp, false, none, 0⟩ : ClientConn).record
        (.ok ⟨404, "Not Found"⟩)).error =
      some (.wrongStatusCode 404 "Not Found") := by
  refine ⟨?_, ?_⟩
  · exact ((non2xx_wrongStatusCode ⟨.initial, none, .udp, false, none, 0⟩
      "rtsp://h/s" [] ⟨404, "Not Found"⟩ (by decide)).1 rfl).1
  · exact ((non2xx_wrongStatusCode
      ⟨.preRecord, some "rtsp://h/s", .udp, false, none, 0⟩
      "rtsp://h/s" [] ⟨404, "Not Found"⟩ (by decide)).2 rfl).1

/-- C8: Announce in Initial state gives the track at every index i the id
i, the base URL u, and an appended control attribute whose value is
trackID= followed by the decimal rendering of i, before the body is
serialized from these tracks; on a 200 response the connection records
streamURL = u and enters PreRecord. -/
theorem announce_track_mutation (c : ClientConn) (u : String)
    (tracks : List Track) (res : Response) (hs : c.state = .initial) :
    ((c.announce u tracks (.ok res)).tracks.length = tracks.length) ∧
    (∀ (i : Nat) (t : Track), tracks[i]? = some t →
      (c.announce u tracks (.ok res)).tracks[i]? =
        some { t with
          id := i
          baseURL := some u
          attributes :=
            t.attributes ++ [("control", "trackID=" ++ Nat.repr i)] }) ∧
    (res.statusCode = 200 →
      (c.announce u tracks (.ok res)).conn.streamURL = some u ∧
      (c.announce u tracks (.ok res)).conn.state = .preRecord) := by
  have htr : (c.announce u tracks (.ok res)).tracks =
      tracks.enum.map fun p => announceSetTrack u p.1 p.2 := by
    by_cases hr : res.statusCode = 200 <;>
      simp [ClientConn.announce, ClientConn.checkState, hs, hr]
  refine ⟨?_, fun i t ht => ?_, fun hc => ?_⟩
  · simp [htr, List.enum_length]
  · simp [htr, List.getElem?_map, List.getElem?_enum, ht, announceSetTrack]
  · simp [ClientConn.announce, ClientConn.checkState, hs, hc]

/-- Witness for C8 at a two-track announce with a 200 response. -/
theorem announce_track_mutation_witness :
    ((⟨.initial, none, .udp, false, none, 0⟩ : ClientConn).announce "rtsp://h/s"
        [⟨0, none, [("rtpmap", "96 H264/90000")]⟩, ⟨0, none, []⟩]
        (.ok ⟨200, "OK"⟩)).tracks[1]? =
      some ⟨1, some "rtsp://h/s", [("control", "trackID=1")]⟩ ∧
    ((⟨.initial, none, .udp, false, none, 0⟩ : ClientConn).announce "rtsp://h/s"
        [⟨0, none, [("rtpmap", "96 H264/90000")]⟩, ⟨0, none, []⟩]
        (.ok ⟨200, "OK"⟩)).conn.state = .preRecord := by
  refine ⟨?_, ?_⟩
  · exact (announce_track_mutation ⟨.initial, none, .udp, false, none, 0⟩
      "rtsp://h/s" [⟨0, none, [("rtpmap", "96 H264/90000")]⟩, ⟨0, none, []⟩]
      ⟨200, "OK"⟩ rfl).2.1 1 ⟨0, none, []⟩ rfl
  · exact ((announce_track_mutation ⟨.initial, none, .udp, false, none, 0⟩
      "rtsp://h/s" [⟨0, none, [("rtpmap", "96 H264/90000")]⟩, ⟨0, none, []⟩]
      ⟨200, "OK"⟩ rfl).2.2 rfl).2

/-! ## Server SETUP path theorems -/

/-- A successful last-occurrence search certifies that the pattern occurs
in the list. -/
theorem lastIndexOfSub_isInfix (pat : List Char) :
    ∀ (s : List Char) (j : Nat), lastIndexOfSub pat s = some j → pat <:+: s := by
  intro s
  induction s with
  | nil =>
    intro j h
    by_cases hp : pat.isPrefixOf ([] : List Char) = true
    · exact (List.isPrefixOf_iff_prefix.mp hp).isInfix
    · simp only [lastIndexOfSub, if_neg hp] at h
      exact absurd h (by simp)
  | cons c rest ih =>
    intro j h
    cases hr : lastIndexOfSub pat rest with
    | some k => exact List.infix_cons (ih k hr)
    | none =>
      simp only [lastIndexOfSub, hr] at h
      by_cases hp : pat.isPrefixOf (c :: rest) = true
      · exact (List.isPrefixOf_iff_prefix.mp hp).isInfix
      · simp only [if_neg hp] at h
        exact absurd h (by simp)

/-- When the pattern does not occur in the list, the last-occurrence
search fails. -/
theorem lastIndexOfSub_eq_none (pat s : List Char) (h : ¬ pat <:+: s) :
    lastIndexOfSub pat s = none := by
  cases hls : lastIndexOfSub pat s with
  | none => rfl
  | some j => exact absurd (lastIndexOfSub_isInfix pat s j hls) h

/-- Splitting off the query of a string without a question mark returns
the whole string. -/
theorem pathSplitQuery_of_no_query (s : List Char) (h : '?' ∉ s) :
    pathSplitQuery s = s := by
  refine List.takeWhile_eq_self_iff.mpr ?_
  intro x hx
  simp only [decide_eq_true_eq]
  intro hxq
  exact h (hxq ▸ hx)

/-- C9 (implicit): a reader-mode SETUP whose path-and-query ends in a
trailing slash and holds no trackID suffix (and no query) derives track
id 0 together with the path stripped of the trailing slash, and the first
SETUP of a session hands exactly this pair to the OnSetup callback. -/
theorem setupPlay_trailing_slash (pathAndQuery : List Char)
    (hno : ¬ trackIDPat <:+: pathAndQuery)
    (hq : '?' ∉ pathAndQuery)
    (hsl : pathAndQuery.getLast? = some '/') :
    setupPlayPath pathAndQuery = .ok (pathAndQuery.dropLast, 0) ∧
    serverSetupPlay none pathAndQuery = .ok (pathAndQuery.dropLast, 0) := by
  have hqd : '?' ∉ pathAndQuery.dropLast := fun hx =>
    hq (List.mem_of_mem_dropLast hx)
  have h1 : setupPlayPath pathAndQuery = .ok (pathAndQuery.dropLast, 0) := by
    simp [setupPlayPath, lastIndexOfSub_eq_none trackIDPat pathAndQuery hno,
      hsl, pathSplitQuery_of_no_query _ hqd]
  exact ⟨h1, by simp [serverSetupPlay, h1]⟩

/-- Witness for C9 at the two trailing-slash URLs of
`TestServerReadSetupPath`. -/
theorem setupPlay_trailing_slash_witness :
    serverSetupPlay none "teststream/".toList =
      .ok ("teststream".toList, 0) ∧
    serverSetupPlay none "test/stream/".toList =
      .ok ("test/stream".toList, 0) := by
  refine ⟨?_, ?_⟩
  · exact (setupPlay_trailing_slash "teststream/".toList (by decide) (by decide)
      (by decide)).2
  · exact (setupPlay_trailing_slash "test/stream/".toList (by decide) (by decide)
      (by decide)).2

/-- C2 counterexample: in publisher (Record) mode, the SETUP of the
different-paths test scenario (announced path `teststream` with one track
of control `trackID=0`, SETUP URL under `test2stream`) is rejected with
the invalid-track-path error, which is not CantSetupTracksDifferentPaths
and whose message differs from the one the claim states. -/
theorem setup_different_paths_publish_counterexample :
    serverSetupRecord "rtsp://localhost:8554/teststream".toList
        ["trackID=0".toList]
        "rtsp://localhost:8554/test2stream/trackID=0".toList
        "test2stream/trackID=0".toList =
      .error (.invalidTrackPath "test2stream/trackID=0".toList) ∧
    SrvError.invalidTrackPath "test2stream/trackID=0".toList ≠
      .cantSetupTracksDifferentPaths ∧
    SrvError.message (.invalidTrackPath "test2stream/trackID=0".toList) ≠
      "can\x27t setup tracks with different paths".toList ∧
    SrvError.status (.invalidTrackPath "test2stream/trackID=0".toList) = 400 := by
  refine ⟨by decide, by decide, by decide, rfl⟩

/-- C2 amended: in reader (Play) mode, once a first SETUP has recorded a
base path, any SETUP whose URL derives a different base path is rejected
with status 400 surfacing CantSetupTracksDifferentPaths; in publisher
(Record) mode, a SETUP whose URL matches the URL of no announced track
(in particular any URL under a different base path) is rejected with
status 400 surfacing the invalid-track-path error instead. -/
theorem setup_different_paths_amended :
    (∀ (sp pathAndQuery path : List Char) (tid : Nat),
      setupPlayPath pathAndQuery = .ok (path, tid) → path ≠ sp →
      serverSetupPlay (some sp) pathAndQuery =
          .error .cantSetupTracksDifferentPaths ∧
        SrvError.status .cantSetupTracksDifferentPaths = 400 ∧
        SrvError.message .cantSetupTracksDifferentPaths =
          "can\x27t setup tracks with different paths".toList) ∧
    (∀ (base setupURL pathAndQuery : List Char) (controls : List (List Char)),
      (∀ ctl ∈ controls, trackURLOf base ctl ≠ setupURL) →
      serverSetupRecord base controls setupURL pathAndQuery =
          .error (.invalidTrackPath pathAndQuery) ∧
        SrvError.status (.invalidTrackPath pathAndQuery) = 400) := by
  refine ⟨fun sp pathAndQuery path tid hd hne => ⟨?_, rfl, by decide⟩,
    fun base setupURL pathAndQuery controls hm => ⟨?_, rfl⟩⟩
  · simp [serverSetupPlay, hd, hne]
  · have hnone : List.findIdx? (fun u => u = setupURL)
        (controls.map (trackURLOf base)) = none := by
      refine List.findIdx?_eq_none_iff.mpr ?_
      intro x hx
      rcases List.mem_map.mp hx with ⟨ctl, hctl, rfl⟩
      simpa using hm ctl hctl
    simp [serverSetupRecord, hnone]

/-- Witness for the amended C2 at the two test scenarios:
`TestServerReadSetupDifferentPaths` (reader mode, recorded base path
`teststream`, second SETUP under `test12stream`) and
`TestServerPublishSetupDifferentPaths` (publisher mode, announced
`teststream` with one `trackID=0` track, SETUP under `test2stream`). -/
theorem setup_different_paths_amended_witness :
    serverSetupPlay (some "teststream".toList)
        "test12stream/trackID=1".toList =
      .error .cantSetupTracksDifferentPaths ∧
    serverSetupRecord "rtsp://localhost:8554/teststream".toList
        ["trackID=0".toList]
        "rtsp://localhost:8554/test2stream/trackID=0".toList
        "test2stream/trackID=0".toList =
      .error (.invalidTrackPath "test2stream/trackID=0".toList) := by
  refine ⟨?_, ?_⟩
  · exact (setup_different_paths_amended.1 "teststream".toList
      "test12stream/trackID=1".toList "test12stream".toList 1
      (by decide) (by decide)).1
  · exact (setup_different_paths_amended.2
      "rtsp://localhost:8554/teststream".toList
      "rtsp://localhost:8554/test2stream/trackID=0".toList
      "test2stream/trackID=0".toList ["trackID=0".toList] (by decide)).1

/-! ## RTP-Info round trip: decimal rendering and parsing -/

/-- A decimal digit character decodes back to its digit value. -/
theorem decDigit_digitCharOf (d : Nat) (h : d < 10) :
    decDigit? (digitCharOf d) = some d := by
  interval_cases d <;> decide

/-- The character of a decimal digit has a code point between 48 and
57. -/
theorem digitCharOf_toNat (d : Nat) (h : d < 10) :
    (digitCharOf d).toNat = 48 + d := by
  interval_cases d <;> decide

/-- The rendering loop agrees with the base-10 digit expansion for
positive inputs whenever it has enough fuel. -/
theorem natToDecAux_eq (fuel : Nat) : ∀ (n : Nat) (acc : List Char),
    n < fuel → 0 < n →
    natToDecAux fuel n acc =
      ((Nat.digits 10 n).reverse.map digitCharOf) ++ acc := by
  induction fuel with
  | zero => intro n acc h; omega
  | succ fuel ih =>
    intro n acc hlt hpos
    rw [natToDecAux]
    by_cases h10 : n < 10
    · rw [if_pos h10]
      have hd : Nat.digits 10 n = [n] := by
        rw [Nat.digits_def' (by norm_num : (1 : Nat) < 10) hpos,
          Nat.div_eq_of_lt h10, Nat.mod_eq_of_lt h10]
        simp
      simp [hd]
    · rw [if_neg h10]
      have hq : 0 < n / 10 := Nat.div_pos (le_of_not_lt h10) (by norm_num)
      have hq2 : n / 10 < fuel := by
        have := Nat.div_lt_self hpos (by norm_num : (1 : Nat) < 10)
        omega
      rw [ih (n / 10) (digitCharOf (n % 10) :: acc) hq2 hq,
        Nat.digits_def' (by norm_num : (1 : Nat) < 10) hpos]
      simp

/-- The decimal rendering of a natural number, expressed by the base-10
digit expansion. -/
theorem natToDec_eq (n : Nat) :
    natToDec n = if n = 0 then [digitCharOf 0]
      else (Nat.digits 10 n).reverse.map digitCharOf := by
  by_cases h0 : n = 0
  · subst h0; rfl
  · rw [if_neg h0, natToDec,
      natToDecAux_eq (n + 1) n [] (by omega) (by omega), List.append_nil]

/-- Every character of a decimal rendering is a digit character. -/
theorem natToDec_chars (n : Nat) :
    ∀ c ∈ natToDec n, 48 ≤ c.toNat ∧ c.toNat ≤ 57 := by
  intro c hc
  rw [natToDec_eq] at hc
  by_cases h0 : n = 0
  · rw [if_pos h0] at hc
    simp at hc
    subst hc
    decide
  · rw [if_neg h0] at hc
    rcases List.mem_map.mp hc with ⟨d, hd, rfl⟩
    have hdl : d < 10 :=
      Nat.digits_lt_base (by norm_num) (List.mem_reverse.mp hd)
    rw [digitCharOf_toNat d hdl]
    omega

/-- No separator of the RTP-Info grammar occurs in a decimal
rendering. -/
theorem natToDec_no_sep (n : Nat) :
    ∀ c ∈ natToDec n, c ≠ ',' ∧ c ≠ ';' ∧ c ≠ '=' := by
  intro c hc
  have hb := natToDec_chars n c hc
  refine ⟨fun h => ?_, fun h => ?_, fun h => ?_⟩ <;>
    (subst h; revert hb; decide)

/-- The accumulating parse of a list of digit characters folds the digit
values into the accumulator. -/
theorem parseDecAux_digits (ds : List Nat) : ∀ acc : Nat,
    (∀ d ∈ ds, d < 10) →
    parseDecAux acc (ds.map digitCharOf) =
      some (ds.foldl (fun a d => 10 * a + d) acc) := by
  induction ds with
  | nil => intro acc _; rfl
  | cons d t ih =>
    intro acc hall
    rw [List.map_cons, parseDecAux, decDigit_digitCharOf d (hall d (by simp))]
    exact ih (10 * acc + d) fun x hx => hall x (by simp [hx])

/-- Folding base-10 digit accumulation over the reversed digit expansion
recovers the number. -/
theorem foldl_reverse_digits (n : Nat) :
    (Nat.digits 10 n).reverse.foldl (fun a d => 10 * a + d) 0 = n := by
  rw [List.foldl_reverse]
  have hfold : ∀ l : List Nat,
      l.foldr (fun x y => 10 * y + x) 0 = Nat.ofDigits 10 l := by
    intro l
    induction l with
    | nil => simp [Nat.ofDigits]
    | cons d t ih =>
      simp only [List.foldr_cons, ih, Nat.ofDigits_cons]
      ring
  rw [hfold]
  exact_mod_cast Nat.ofDigits_digits 10 n

/-- On a nonempty list the full decimal parse is the accumulating
parse. -/
theorem parseDecList_of_ne_nil (l : List Char) (h : l ≠ []) :
    parseDecList l = parseDecAux 0 l := by
  cases l with
  | nil => exact absurd rfl h
  | cons c rest => rfl

/-- Parsing inverts the decimal rendering. -/
theorem parseDecList_natToDec (n : Nat) : parseDecList (natToDec n) = some n := by
  by_cases h0 : n = 0
  · subst h0; rfl
  · have hne : Nat.digits 10 n ≠ [] := Nat.digits_ne_nil_iff_ne_zero.mpr h0
    rw [natToDec_eq, if_neg h0, parseDecList_of_ne_nil _ (by simpa using hne),
      parseDecAux_digits _ 0
        (fun d hd => Nat.digits_lt_base (by norm_num) (List.mem_reverse.mp hd)),
      foldl_reverse_digits]

/-- The bounded parse of `strconv.ParseUint` inverts the decimal
rendering of any value below the bound. -/
theorem parseUintDec_natToDec (n bound : Nat) (h : n < bound) :
    parseUintDec (natToDec n) bound = some n := by
  rw [parseUintDec, parseDecList_natToDec]
  simp [h]

/-! ## RTP-Info round trip: splitting and joining -/

/-- Splitting never yields an empty list of pieces. -/
theorem splitOnChar_ne_nil (sep : Char) (s : List Char) :
    splitOnChar sep s ≠ [] := by
  cases s with
  | nil => simp [splitOnChar]
  | cons c rest =>
    simp only [splitOnChar]
    cases splitOnChar sep rest with
    | nil => by_cases hc : c = sep <;> simp [hc]
    | cons a as => by_cases hc : c = sep <;> simp [hc]

/-- Splitting a separator-free string yields the string as the single
piece. -/
theorem splitOnChar_no_sep (sep : Char) (x : List Char) (h : sep ∉ x) :
    splitOnChar sep x = [x] := by
  induction x with
  | nil => rfl
  | cons c rest ih =>
    have hc : c ≠ sep := fun hh => h (by simp [hh])
    have hr : sep ∉ rest := fun hh => h (by simp [hh])
    rw [splitOnChar, ih hr]
    simp [hc]

/-- Splitting past a separator-free head piece peels it off. -/
theorem splitOnChar_append_sep (sep : Char) (x t : List Char) (h : sep ∉ x) :
    splitOnChar sep (x ++ sep :: t) = x :: splitOnChar sep t := by
  induction x with
  | nil =>
    cases hs : splitOnChar sep t with
    | nil => exact absurd hs (splitOnChar_ne_nil sep t)
    | cons a as => simp [splitOnChar, hs]
  | cons c x ih =>
    have hc : c ≠ sep := fun hh => h (by simp [hh])
    have hx : sep ∉ x := fun hh => h (by simp [hh])
    rw [List.cons_append, splitOnChar, ih hx]
    simp [hc]

/-- Splitting inverts joining for a nonempty list of separator-free
pieces. -/
theorem splitOnChar_joinSep (sep : Char) : ∀ pieces : List (List Char),
    pieces ≠ [] → (∀ p ∈ pieces, sep ∉ p) →
    splitOnChar sep (joinSep sep pieces) = pieces := by
  intro pieces
  induction pieces with
  | nil => intro h; exact absurd rfl h
  | cons x rest ih =>
    intro _ hall
    cases rest with
    | nil => exact splitOnChar_no_sep sep x (hall x (by simp))
    | cons y t =>
      rw [joinSep, splitOnChar_append_sep sep x _ (hall x (by simp)),
        ih (by simp) fun p hp => hall p (by simp [hp])]

/-- The first-equals split of a key-value rendering with an equals-free
key recovers the key and the value. -/
theorem splitFirstEq_append (k v : List Char) (h : '=' ∉ k) :
    splitFirstEq (k ++ '=' :: v) = some (k, v) := by
  induction k with
  | nil => rfl
  | cons c x ih =>
    have hc : c ≠ '=' := fun hh => h (by simp [hh])
    have hx : '=' ∉ x := fun hh => h (by simp [hh])
    rw [List.cons_append, splitFirstEq, ih hx]
    simp [hc]

/-! ## RTP-Info round trip: entry parsing -/

/-- Parsing a rendered url item sets the entry URL. -/
theorem parseKV_url (parseURL : List Char → Except (List Char) (List Char))
    (e0 : RTPInfoEntry) (u : List Char) (h : parseURL u = .ok u) :
    parseKV parseURL e0 ("url=".toList ++ u) = .ok { e0 with url := u } := by
  have hsp : ("url=".toList ++ u) = "url".toList ++ '=' :: u := rfl
  rw [parseKV, hsp, splitFirstEq_append _ _ (by decide)]
  simp [h]

/-- Parsing a rendered seq item sets the entry sequence number. -/
theorem parseKV_seq (parseURL : List Char → Except (List Char) (List Char))
    (e0 : RTPInfoEntry) (n : Nat) (h : n < 65536) :
    parseKV parseURL e0 ("seq=".toList ++ natToDec n) =
      .ok { e0 with sequenceNumber := n } := by
  have hsp : ("seq=".toList ++ natToDec n) = "seq".toList ++ '=' :: natToDec n :=
    rfl
  rw [parseKV, hsp, splitFirstEq_append _ _ (by decide)]
  simp +decide [parseUintDec_natToDec n 65536 h]

/-- Parsing a rendered rtptime item sets the entry timestamp. -/
theorem parseKV_rtptime (parseURL : List Char → Except (List Char) (List Char))
    (e0 : RTPInfoEntry) (n : Nat) (h : n < 4294967296) :
    parseKV parseURL e0 ("rtptime=".toList ++ natToDec n) =
      .ok { e0 with timestamp := n } := by
  have hsp : ("rtptime=".toList ++ natToDec n) =
      "rtptime".toList ++ '=' :: natToDec n := rfl
  rw [parseKV, hsp, splitFirstEq_append _ _ (by decide)]
  simp +decide [parseUintDec_natToDec n 4294967296 h]

/-- The rendering of one entry, seen as its three semicolon-joined
key-value items. -/
theorem entryWrite_as_join (e : RTPInfoEntry) :
    entryWrite e = joinSep ';'
      ["url=".toList ++ e.url,
       "seq=".toList ++ natToDec e.sequenceNumber,
       "rtptime=".toList ++ natToDec e.timestamp] := by
  simp [entryWrite, joinSep]

/-- No semicolon occurs in any of the three rendered items of an entry
whose URL is semicolon-free. -/
theorem entry_pieces_no_semi (e : RTPInfoEntry) (hu : ';' ∉ e.url) :
    ∀ p ∈ ["url=".toList ++ e.url,
           "seq=".toList ++ natToDec e.sequenceNumber,
           "rtptime=".toList ++ natToDec e.timestamp], ';' ∉ p := by
  intro p hp hmem
  simp only [List.mem_cons, List.not_mem_nil, or_false] at hp
  rcases hp with rfl | rfl | rfl
  · rcases List.mem_append.mp hmem with hl | hl
    · revert hl; decide
    · exact hu hl
  · rcases List.mem_append.mp hmem with hl | hl
    · revert hl; decide
    · exact (natToDec_no_sep _ _ hl).2.1 rfl
  · rcases List.mem_append.mp hmem with hl | hl
    · revert hl; decide
    · exact (natToDec_no_sep _ _ hl).2.1 rfl

/-- Parsing inverts the rendering of one entry whose URL avoids the
grammar separators, whose numeric fields fit their Go types, and whose
URL string survives URL parsing unchanged. -/
theorem parseEntry_entryWrite
    (parseURL : List Char → Except (List Char) (List Char)) (e : RTPInfoEntry)
    (hsemi : ';' ∉ e.url) (hsn : e.sequenceNumber < 65536)
    (hts : e.timestamp < 4294967296) (hp : parseURL e.url = .ok e.url) :
    parseEntry parseURL (entryWrite e) = .ok e := by
  rw [parseEntry, entryWrite_as_join,
    splitOnChar_joinSep ';' _ (by simp) (entry_pieces_no_semi e hsemi)]
  rw [List.foldlM_cons, parseKV_url parseURL _ e.url hp]
  show List.foldlM (parseKV parseURL) { url := e.url, sequenceNumber := 0, timestamp := 0 } _ = _
  rw [List.foldlM_cons, parseKV_seq parseURL _ e.sequenceNumber hsn]
  show List.foldlM (parseKV parseURL)
    { url := e.url, sequenceNumber := e.sequenceNumber, timestamp := 0 } _ = _
  rw [List.foldlM_cons, parseKV_rtptime parseURL _ e.timestamp hts]
  rfl

/-- No comma occurs in the rendering of an entry whose URL is
comma-free. -/
theorem entryWrite_no_comma (e : RTPInfoEntry) (hu : ',' ∉ e.url) :
    ',' ∉ entryWrite e := by
  intro hmem
  simp only [entryWrite, List.append_assoc, List.mem_append] at hmem
  rcases hmem with hl | hl | hl | hl | hl | hl
  · revert hl; decide
  · exact hu hl
  · revert hl; decide
  · exact (natToDec_no_sep _ _ hl).1 rfl
  · revert hl; decide
  · exact (natToDec_no_sep _ _ hl).1 rfl

/-- Parsing inverts the rendering entrywise across a whole header. -/
theorem mapM_parseEntry
    (parseURL : List Char → Except (List Char) (List Char)) :
    ∀ h : RTPInfo,
    (∀ e ∈ h, ';' ∉ e.url) →
    (∀ e ∈ h, e.sequenceNumber < 65536 ∧ e.timestamp < 4294967296) →
    (∀ e ∈ h, parseURL e.url = .ok e.url) →
    (h.map entryWrite).mapM (parseEntry parseURL) = .ok h := by
  intro h
  induction h with
  | nil => intro _ _ _; rfl
  | cons e t ih =>
    intro h1 h2 h3
    rw [List.map_cons, List.mapM_cons,
      parseEntry_entryWrite parseURL e (h1 e (by simp))
        (h2 e (by simp)).1 (h2 e (by simp)).2 (h3 e (by simp)),
      ih (fun x hx => h1 x (by simp [hx])) (fun x hx => h2 x (by simp [hx]))
        (fun x hx => h3 x (by simp [hx]))]
    rfl

/-- C10 (implicit): for a nonempty RTP-Info header whose entries all
carry a URL string free of commas, semicolons and equals signs (and whose
numeric fields fit uint16 and uint32, as the Go types guarantee), and for
any URL parser that maps each rendered URL back to itself, decoding
inverts encoding: reading the written header value into an empty header
yields exactly the original entries, in order. -/
theorem rtpinfo_read_write_roundtrip
    (parseURL : List Char → Except (List Char) (List Char)) (h : RTPInfo)
    (hne : h ≠ [])
    (hurl : ∀ e ∈ h, ',' ∉ e.url ∧ ';' ∉ e.url ∧ '=' ∉ e.url)
    (hbounds : ∀ e ∈ h, e.sequenceNumber < 65536 ∧ e.timestamp < 4294967296)
    (hp : ∀ e ∈ h, parseURL e.url = .ok e.url) :
    RTPInfo.read parseURL (RTPInfo.write h) = .ok h := by
  show (splitOnChar ',' (joinSep ',' (h.map entryWrite))).mapM
      (parseEntry parseURL) = .ok h
  rw [splitOnChar_joinSep ',' (h.map entryWrite) (by simpa using hne)
      (by
        intro p hpm
        rcases List.mem_map.mp hpm with ⟨e, he, rfl⟩
        exact entryWrite_no_comma e (hurl e he).1)]
  exact mapM_parseEntry parseURL h (fun e he => (hurl e he).2.1) hbounds hp

/-- Witness for C10 at a concrete two-entry header with the identity URL
parser. -/
theorem rtpinfo_read_write_roundtrip_witness :
    RTPInfo.read Except.ok
        (RTPInfo.write
          [⟨"rtsp://h/a".toList, 35, 717574556⟩, ⟨"rtsp://h/b".toList, 0, 0⟩]) =
      .ok [⟨"rtsp://h/a".toList, 35, 717574556⟩, ⟨"rtsp://h/b".toList, 0, 0⟩] :=
  rtpinfo_read_write_roundtrip Except.ok
    [⟨"rtsp://h/a".toList, 35, 717574556⟩, ⟨"rtsp://h/b".toList, 0, 0⟩]
    (by decide) (by decide) (by decide) (by decide)

end Gortsplib
